import Mathlib

/-!
Verification of the data-ingestion pipeline in src/src/data_ingestion.py.

The script is embedded shallowly:
* a pandas dataframe becomes `DataFrame` (a header list plus a list of rows);
* pandas column operations (`drop`, `rename`) are translated with their
  library semantics: `drop` raises `KeyError` when a label is absent,
  `rename` silently skips absent keys;
* Python exceptions become the `PyError` type, fallible code returns `Except`;
* the filesystem is a map from paths to file contents, logging and console
  output are recorded as an explicit event trace;
* `sklearn.model_selection.train_test_split` is external library code (not in
  this repository); it is modelled from the spec as a deterministic
  shuffle-and-cut: a seed-determined permutation of the row indices is cut at
  `ceil(f * n)`, the head becoming the test rows and the tail the train rows.
-/

namespace Ingestion

/-- Python exception values, tagged by the exception class relevant here. -/
inductive PyError where
  | fileNotFound (msg : String)
  | yamlError (msg : String)
  | parserError (msg : String)
  | keyError (msg : String)
  | typeError (msg : String)
  | valueError (msg : String)
  | otherError (msg : String)
deriving DecidableEq

/-- The message text carried by an exception (what `str(e)` yields). -/
def PyError.message : PyError → String
  | .fileNotFound m => m
  | .yamlError m => m
  | .parserError m => m
  | .keyError m => m
  | .typeError m => m
  | .valueError m => m
  | .otherError m => m

/-- A parsed YAML document as returned by yaml.safe_load: None, a scalar
number, a string, or a mapping. -/
inductive Yaml where
  | null
  | num (q : ℚ)
  | str (s : String)
  | map (entries : List (String × Yaml))

/-- Python subscripting `y[k]` with a string key: mappings look the key up
(raising `KeyError` when absent); `None`, numbers and strings are not
subscriptable by a string key and raise `TypeError`. -/
def Yaml.subscript : Yaml → String → Except PyError Yaml
  | .map es, k =>
    match es.lookup k with
    | some v => .ok v
    | none => .error (.keyError k)
  | .null, _ => .error (.typeError "NoneType object is not subscriptable")
  | .num _, _ => .error (.typeError "float object is not subscriptable")
  | .str _, _ => .error (.typeError "string indices must be integers")

/-- The expression `params[data_ingestion][test_size]` from line 79 of
data_ingestion.py. -/
def lookupTestSize (y : Yaml) : Except PyError Yaml :=
  match y.subscript "data_ingestion" with
  | .error e => .error e
  | .ok s => s.subscript "test_size"

/-- A pandas dataframe: a list of column labels and a list of rows, each row
a list of cell values aligned positionally with the labels. -/
structure DataFrame where
  cols : List String
  rows : List (List String)
deriving DecidableEq

/-- The three columns dropped by line 56 of data_ingestion.py. -/
def dropTargets : List String := ["Unnamed: 2", "Unnamed: 3", "Unnamed: 4"]

/-- The rename mapping of line 57 applied to one label (dict semantics of
pandas rename: labels not in the mapping are kept). -/
def renameCol (c : String) : String :=
  if c = "v1" then "target" else if c = "v2" then "text" else c

/-- True for labels that survive the drop of line 56. -/
def keepCol (c : String) : Bool := !(dropTargets.contains c)

/-- One row after the drop of line 56: the cells at dropped label positions
are removed. -/
def dropRow (cols : List String) (row : List String) : List String :=
  ((cols.zip row).filter (fun p => keepCol p.1)).map Prod.snd

/-- pandas df.drop(columns=dropTargets): fails with KeyError when any listed
label is absent (the pandas default errors=raise), otherwise removes those
columns. -/
def dropCols (df : DataFrame) : Except PyError DataFrame :=
  let missing := dropTargets.filter (fun c => !(df.cols.contains c))
  if missing.isEmpty then
    .ok ⟨df.cols.filter keepCol, df.rows.map (dropRow df.cols)⟩
  else
    .error (.keyError (String.intercalate ", " missing ++ " not found in axis"))

/-- pandas df.rename(columns=...): relabels columns, silently skipping keys
that name no existing column; never fails. -/
def renameCols (df : DataFrame) : DataFrame :=
  ⟨df.cols.map renameCol, df.rows⟩

/-- The values of column c, row by row: for each row, the cell paired with
the first column labelled c (none when no column is labelled c). -/
def DataFrame.colVals (df : DataFrame) (c : String) : List (Option String) :=
  df.rows.map (fun r => (df.cols.zip r).lookup c)

/-- Observable side effects of one run: log lines at debug and error level,
the attempt to fetch the remote CSV, file writes, and console prints. -/
inductive Event where
  | logDebug (msg : String)
  | logError (msg : String)
  | fetchAttempt
  | fileWrite (path : String)
  | consolePrint (msg : String)
deriving DecidableEq

/-- Contents of the filesystem: maps a path to the file content at it. -/
def Fs : Type := String → Option String

/-- preprocess_data (lines 54-62): drop the three placeholder columns, then
rename v1 to target and v2 to text; a KeyError from the drop is logged and
re-raised, success is logged at debug level. -/
def preprocess_data (df : DataFrame) : Except PyError DataFrame × List Event :=
  match dropCols df with
  | .ok df1 => (.ok (renameCols df1), [.logDebug "Data preprocessing completed"])
  | .error e => (.error e, [.logError ("Missing column in the dataframe: " ++ e.message)])

/-- df.to_csv(index=False): a header line of comma-joined labels, then one
comma-joined line per row, each line ending in a newline. -/
def to_csv (df : DataFrame) : String :=
  String.intercalate "," df.cols ++ "\n"
    ++ String.join (df.rows.map (fun r => String.intercalate "," r ++ "\n"))

/-- Splits a character list at newline characters (used to count the lines
of a serialized CSV file). -/
def splitNl : List Char → List (List Char)
  | [] => [[]]
  | x :: xs =>
    match splitNl xs with
    | [] => [[]]
    | y :: ys => if x = '\n' then [] :: y :: ys else (x :: y) :: ys

/-- The newline-separated pieces of a string. -/
def csvLines (s : String) : List String := (splitNl s.data).map String.mk

/-- One step of a 32-bit linear congruential generator, driving the
deterministic shuffle of the split. -/
def lcg (s : Nat) : Nat := (1664525 * s + 1013904223) % 4294967296

/-- Removes the element at position i, returning it with the remainder;
none when i is out of range. -/
def extractAt : Nat → List α → Option (α × List α)
  | _, [] => none
  | 0, x :: xs => some (x, xs)
  | n + 1, x :: xs =>
    match extractAt n xs with
    | some (y, ys) => some (y, x :: ys)
    | none => none

/-- Fisher-Yates shuffle driven by the generator state s; the fuel argument
bounds the recursion and is set to the list length. -/
def shuffleAux : Nat → Nat → List α → List α
  | 0, _, l => l
  | _ + 1, _, [] => []
  | fuel + 1, s, x :: xs =>
    match extractAt (s % (x :: xs).length) (x :: xs) with
    | some (y, ys) => y :: shuffleAux fuel (lcg s) ys
    | none => x :: xs

/-- Modelled from the spec: the seed-determined permutation of the row
indices 0..n-1 used by sklearn train_test_split (random_state = seed).
sklearn is external library code, absent from this repository; per spec
section 4.4 any deterministic stratification-free shuffle satisfies the
contract, and this one is a deterministic Fisher-Yates shuffle. -/
def shuffledRange (seed n : Nat) : List Nat :=
  shuffleAux n (lcg (seed + 1)) (List.range n)

/-- Modelled from the spec: the index lists (train, test) of sklearn
train_test_split on n rows: the shuffled index list is cut at
ceil(test_size * n); the head portion indexes the test rows, the tail the
train rows. -/
def splitIdxs (test_size : ℚ) (seed n : Nat) : List Nat × List Nat :=
  let k := ⌈test_size * (n : ℚ)⌉₊
  ((shuffledRange seed n).drop k, (shuffledRange seed n).take k)

/-- Modelled from the spec: sklearn train_test_split(df, test_size,
random_state) as used on line 85, returning the train and test dataframes,
whose rows are the rows of df selected by the split index lists. -/
def train_test_split (df : DataFrame) (test_size : ℚ) (random_state : Nat) :
    DataFrame × DataFrame :=
  let idxs := splitIdxs test_size random_state df.rows.length
  (⟨df.cols, idxs.1.filterMap (fun i => df.rows[i]?)⟩,
   ⟨df.cols, idxs.2.filterMap (fun i => df.rows[i]?)⟩)

/-- The hard-coded dataset URL of line 81. -/
def data_url : String :=
  "https://raw.githubusercontent.com/vikashishere/Datasets/main/spam.csv"

/-- load_params (lines 29-40) applied to the outcome of opening and parsing
params.yaml (the outcome is supplied by the environment, since file and
parser are external): success and both failure classes are logged, failures
are re-raised. -/
def load_params (config : Except PyError Yaml) : Except PyError Yaml × List Event :=
  match config with
  | .ok y => (.ok y, [.logDebug "Parameters retrieved from params.yaml"])
  | .error (.fileNotFound m) =>
      (.error (.fileNotFound m), [.logError "File not found: params.yaml"])
  | .error (.yamlError m) =>
      (.error (.yamlError m), [.logError ("YAML error: " ++ m)])
  | .error e => (.error e, [])

/-- load_data (lines 42-52) applied to the outcome of pd.read_csv(data_url)
(supplied by the environment): the fetch attempt is recorded, success is
logged at debug level, parser errors and all other errors are logged with
their distinct messages and re-raised. -/
def load_data (fetched : Except PyError DataFrame) :
    Except PyError DataFrame × List Event :=
  match fetched with
  | .ok df => (.ok df, [.fetchAttempt, .logDebug ("Data loaded from " ++ data_url)])
  | .error (.parserError m) =>
      (.error (.parserError m),
       [.fetchAttempt, .logError ("Failed to parse the CSV file: " ++ m)])
  | .error e =>
      (.error e,
       [.fetchAttempt,
        .logError ("Unexpected error occurred while loading the data: " ++ e.message)])

/-- save_data (lines 64-73): writes the train then the test serialization
with truncating write_text under data_root/raw; the environment function wf
injects a filesystem exception at a path (none for a successful write); any
failure is logged and re-raised, leaving the writes already made in place. -/
def save_data (train_df test_df : DataFrame) (data_root : String) (fs : Fs)
    (wf : String → Option PyError) : Except PyError Unit × Fs × List Event :=
  let p1 := data_root ++ "/raw/train.csv"
  let p2 := data_root ++ "/raw/test.csv"
  match wf p1 with
  | some e =>
      (.error e, fs,
       [.logError ("Unexpected error occurred while saving the data: " ++ e.message)])
  | none =>
    let fs1 : Fs := fun p => if p = p1 then some (to_csv train_df) else fs p
    match wf p2 with
    | some e =>
        (.error e, fs1,
         [.fileWrite p1,
          .logError ("Unexpected error occurred while saving the data: " ++ e.message)])
    | none =>
        let fs2 : Fs := fun p => if p = p2 then some (to_csv test_df) else fs1 p
        (.ok (), fs2,
         [.fileWrite p1, .fileWrite p2,
          .logDebug ("Train and test data saved to " ++ data_root ++ "/raw")])

/-- The world one run executes in: the parse outcome of params.yaml, the
fetch outcome for the dataset URL, the prior filesystem, and the write
failures the filesystem will inject. -/
structure Env where
  config : Except PyError Yaml
  fetched : Except PyError DataFrame
  fs : Fs
  writeFail : String → Option PyError

/-- The try-block of main (lines 77-86), threading the filesystem and the
event trace; mirrors the statement order: config load, test_size lookup,
fetch, preprocess, split, save. -/
def pipelineBody (env : Env) : Except PyError Unit × Fs × List Event :=
  match load_params env.config with
  | (.error e, t) => (.error e, env.fs, t)
  | (.ok params, t1) =>
    match lookupTestSize params with
    | .error e => (.error e, env.fs, t1)
    | .ok tsv =>
      match load_data env.fetched with
      | (.error e, t2) => (.error e, env.fs, t1 ++ t2)
      | (.ok df, t2) =>
        match preprocess_data df with
        | (.error e, t3) => (.error e, env.fs, t1 ++ t2 ++ t3)
        | (.ok final_df, t3) =>
          match tsv with
          | .num f =>
            let dfs := train_test_split final_df f 2
            match save_data dfs.1 dfs.2 "data" env.fs env.writeFail with
            | (.ok _, fs4, t4) => (.ok (), fs4, t1 ++ t2 ++ t3 ++ t4)
            | (.error e, fs4, t4) => (.error e, fs4, t1 ++ t2 ++ t3 ++ t4)
          | _ =>
            (.error (.valueError "Invalid value for test_size"), env.fs,
             t1 ++ t2 ++ t3)

/-- The result of one process run: final filesystem, the event trace, and
the process exit code. -/
structure RunResult where
  fs : Fs
  events : List Event
  exitCode : Nat

/-- main (lines 76-89): runs the pipeline; any exception is caught once at
the top level, logged at error level, echoed to the console as
Error: message, and the function returns normally, so the process always
exits with code 0. -/
def main (env : Env) : RunResult :=
  match pipelineBody env with
  | (.ok _, fs1, t) => ⟨fs1, t, 0⟩
  | (.error e, fs1, t) =>
      ⟨fs1,
       t ++ [.logError ("Failed to complete the data ingestion process: " ++ e.message),
             .consolePrint ("Error: " ++ e.message)],
       0⟩

/-- A dataset whose three Unnamed columns exist but whose v1 and v2 columns
are absent (schema-drifted input used to settle claim C1). -/
def dfNoV : DataFrame :=
  ⟨["Unnamed: 2", "Unnamed: 3", "Unnamed: 4", "other"], [["a", "b", "c", "d"]]⟩

/-- A dataset with only the three Unnamed columns (used for claim C8). -/
def dfU : DataFrame :=
  ⟨["Unnamed: 2", "Unnamed: 3", "Unnamed: 4"], [["a", "b", "c"]]⟩

/-- A raw dataset holding all five targeted columns plus one extra column
(used for claim C5). -/
def df5 : DataFrame :=
  ⟨["v1", "v2", "Unnamed: 2", "Unnamed: 3", "Unnamed: 4", "extra"],
   [["spam", "hello", "a", "b", "c", "x"], ["ham", "bye", "d", "e", "f", "y"]]⟩

/-- A normalized ten-row dataset realizing the worked example of the spec
(10 rows, test_size 0.2, seed 2). -/
def df10 : DataFrame :=
  ⟨["target", "text"],
   [["ham", "m0"], ["spam", "m1"], ["ham", "m2"], ["spam", "m3"], ["ham", "m4"],
    ["ham", "m5"], ["spam", "m6"], ["ham", "m7"], ["ham", "m8"], ["spam", "m9"]]⟩

/-- A raw ten-row dataset with the five expected columns (used for the
determinism claim C4). -/
def dfRaw10 : DataFrame :=
  ⟨["v1", "v2", "Unnamed: 2", "Unnamed: 3", "Unnamed: 4"],
   [["ham", "m0", "", "", ""], ["spam", "m1", "", "", ""], ["ham", "m2", "", "", ""],
    ["spam", "m3", "", "", ""], ["ham", "m4", "", "", ""], ["ham", "m5", "", "", ""],
    ["spam", "m6", "", "", ""], ["ham", "m7", "", "", ""], ["ham", "m8", "", "", ""],
    ["spam", "m9", "", "", ""]]⟩

/-- A well-formed parsed params.yaml with data_ingestion.test_size = 0.2. -/
def cfgOk : Yaml := .map [("data_ingestion", .map [("test_size", .num (1/5))])]

/-- An environment whose every file write succeeds. -/
def noFail : String → Option PyError := fun _ => none

/-- An empty prior filesystem. -/
def emptyFs : Fs := fun _ => none

/-- A prior filesystem in which every path already holds stale content. -/
def junkFs : Fs := fun _ => some "stale"

/-- A healthy environment over an empty filesystem. -/
def envC4a : Env := ⟨.ok cfgOk, .ok dfRaw10, emptyFs, noFail⟩

/-- The same config and dataset as envC4a over a dirty filesystem. -/
def envC4b : Env := ⟨.ok cfgOk, .ok dfRaw10, junkFs, noFail⟩

/-- An environment in which params.yaml does not exist. -/
def envC6 : Env := ⟨.error (.fileNotFound "params.yaml"), .ok dfRaw10, emptyFs, noFail⟩

/-- An environment in which params.yaml is not valid YAML. -/
def envC7 : Env :=
  ⟨.error (.yamlError "mapping values are not allowed here"), .ok dfRaw10, emptyFs, noFail⟩

/-- An environment in which params.yaml is an empty file, so yaml.safe_load
yields None. -/
def envC9 : Env := ⟨.ok .null, .ok dfRaw10, emptyFs, noFail⟩

/-- The pure data path of a successful run: the train/test pair produced
from a given config parse outcome and fetch outcome, independent of any
filesystem state. -/
def pureSplit (c : Except PyError Yaml) (fe : Except PyError DataFrame) :
    Option (DataFrame × DataFrame) :=
  match c with
  | .ok y =>
    match lookupTestSize y with
    | .ok (.num f) =>
      match fe with
      | .ok df =>
        match dropCols df with
        | .ok d1 => some (train_test_split (renameCols d1) f 2)
        | .error _ => none
      | .error _ => none
    | _ => none
  | .error _ => none

/-! ## Permutation structure of the modelled shuffle -/

theorem extractAt_perm {α : Type} :
    ∀ (l : List α) (i : Nat) (x : α) (rest : List α),
      extractAt i l = some (x, rest) → l.Perm (x :: rest) := by
  intro l
  induction l with
  | nil => intro i x rest h; simp [extractAt] at h
  | cons a as ih =>
    intro i x rest h
    match i with
    | 0 =>
      simp only [extractAt, Option.some.injEq, Prod.mk.injEq] at h
      obtain ⟨hx, hr⟩ := h
      subst hx; subst hr
      exact List.Perm.refl _
    | n + 1 =>
      simp only [extractAt] at h
      cases he : extractAt n as with
      | none => rw [he] at h; simp at h
      | some p =>
        obtain ⟨y, ys⟩ := p
        rw [he] at h
        simp only [Option.some.injEq, Prod.mk.injEq] at h
        obtain ⟨hx, hr⟩ := h
        subst hx; subst hr
        exact ((ih n y ys he).cons a).trans (List.Perm.swap y a ys)

theorem shuffleAux_perm {α : Type} :
    ∀ (fuel s : Nat) (l : List α), (shuffleAux fuel s l).Perm l := by
  intro fuel
  induction fuel with
  | zero => intro s l; simp [shuffleAux]
  | succ n ih =>
    intro s l
    match l with
    | [] => simp [shuffleAux]
    | x :: xs =>
      simp only [shuffleAux]
      cases he : extractAt (s % (x :: xs).length) (x :: xs) with
      | none => exact List.Perm.refl _
      | some p =>
        obtain ⟨y, ys⟩ := p
        exact ((ih (lcg s) ys).cons y).trans (extractAt_perm _ _ _ _ he).symm

theorem shuffledRange_perm (seed n : Nat) :
    (shuffledRange seed n).Perm (List.range n) :=
  shuffleAux_perm n (lcg (seed + 1)) (List.range n)

theorem shuffledRange_nodup (seed n : Nat) : (shuffledRange seed n).Nodup :=
  ((shuffledRange_perm seed n).nodup_iff).2 (List.nodup_range n)

theorem shuffledRange_mem_lt (seed n : Nat) (i : Nat)
    (h : i ∈ shuffledRange seed n) : i < n :=
  List.mem_range.1 ((shuffledRange_perm seed n).mem_iff.1 h)

theorem shuffledRange_length (seed n : Nat) : (shuffledRange seed n).length = n := by
  rw [(shuffledRange_perm seed n).length_eq, List.length_range]

/-! ## Row selection by index lists -/

theorem filterMap_getElem_length {α : Type} :
    ∀ (idxs : List Nat) (l : List α), (∀ i ∈ idxs, i < l.length) →
      (idxs.filterMap (fun i => l[i]?)).length = idxs.length := by
  intro idxs l
  induction idxs with
  | nil => intro h; simp
  | cons i is ih =>
    intro h
    have hi : i < l.length := h i (by simp)
    rw [List.filterMap_cons, List.getElem?_eq_getElem hi]
    simp only [List.length_cons]
    rw [ih (fun j hj => h j (by simp [hj]))]

theorem range_filterMap_getElem {α : Type} :
    ∀ l : List α, (List.range l.length).filterMap (fun i => l[i]?) = l := by
  intro l
  induction l with
  | nil => simp
  | cons x xs ih =>
    rw [List.length_cons, List.range_succ_eq_map, List.filterMap_cons]
    simp only [List.getElem?_cons_zero]
    rw [List.filterMap_map]
    have hfun : ((fun i => (x :: xs)[i]?) ∘ (· + 1)) = (fun i => xs[i]?) := by
      funext i
      simp [List.getElem?_cons_succ]
    rw [hfun, ih]

/-! ## Splitter partition and size lemmas -/

theorem splitIdxs_disjoint (f : ℚ) (seed n : Nat) :
    List.Disjoint (splitIdxs f seed n).2 (splitIdxs f seed n).1 := by
  simp only [splitIdxs]
  have hnd := shuffledRange_nodup seed n
  rw [← List.take_append_drop ⌈f * (n : ℚ)⌉₊ (shuffledRange seed n)] at hnd
  exact (List.nodup_append.1 hnd).2.2

theorem split_union_perm (df : DataFrame) (f : ℚ) (seed : Nat) :
    ((train_test_split df f seed).2.rows
      ++ (train_test_split df f seed).1.rows).Perm df.rows := by
  simp only [train_test_split, splitIdxs]
  rw [← List.filterMap_append, List.take_append_drop]
  have h1 := (shuffledRange_perm seed df.rows.length).filterMap (fun i => df.rows[i]?)
  have h2 := range_filterMap_getElem df.rows
  exact h1.trans (by rw [h2])

theorem natCeil_mul_le (f : ℚ) (n : Nat) (hf : f ≤ 1) : ⌈f * (n : ℚ)⌉₊ ≤ n := by
  calc ⌈f * (n : ℚ)⌉₊ ≤ ⌈((n : ℚ))⌉₊ :=
        Nat.ceil_le_ceil (by nlinarith [Nat.cast_nonneg (α := ℚ) n])
  _ = n := Nat.ceil_natCast n

theorem split_test_length (df : DataFrame) (f : ℚ) (seed : Nat) (hf : f ≤ 1) :
    (train_test_split df f seed).2.rows.length = ⌈f * (df.rows.length : ℚ)⌉₊ := by
  simp only [train_test_split, splitIdxs]
  rw [filterMap_getElem_length _ _
    (fun i hi => shuffledRange_mem_lt seed df.rows.length i (List.take_subset _ _ hi))]
  rw [List.length_take, shuffledRange_length]
  exact min_eq_left (natCeil_mul_le f df.rows.length hf)

theorem split_train_length (df : DataFrame) (f : ℚ) (seed : Nat) :
    (train_test_split df f seed).1.rows.length
      = df.rows.length - ⌈f * (df.rows.length : ℚ)⌉₊ := by
  simp only [train_test_split, splitIdxs]
  rw [filterMap_getElem_length _ _
    (fun i hi => shuffledRange_mem_lt seed df.rows.length i (List.drop_subset _ _ hi))]
  rw [List.length_drop, shuffledRange_length]

theorem split_df10_eq :
    train_test_split df10 (1/5) 2 =
      (⟨["target", "text"],
        [["ham", "m0"], ["spam", "m1"], ["ham", "m5"], ["ham", "m7"], ["spam", "m3"],
         ["spam", "m6"], ["ham", "m4"], ["spam", "m9"]]⟩,
       ⟨["target", "text"], [["ham", "m8"], ["ham", "m2"]]⟩) := by
  have h10 : df10.rows.length = 10 := by decide
  have hk : (⌈(1/5 : ℚ) * ((10 : ℕ) : ℚ)⌉₊ : ℕ) = 2 := by norm_num
  simp only [train_test_split, splitIdxs, h10, hk]
  decide

/-! ## Normalizer lemmas -/

theorem contains_true {l : List String} {a : String} (h : a ∈ l) :
    l.contains a = true := by simpa using h

theorem dropCols_eq_ok (df : DataFrame)
    (h2 : "Unnamed: 2" ∈ df.cols) (h3 : "Unnamed: 3" ∈ df.cols)
    (h4 : "Unnamed: 4" ∈ df.cols) :
    dropCols df = .ok ⟨df.cols.filter keepCol, df.rows.map (dropRow df.cols)⟩ := by
  have hm : dropTargets.filter (fun c => !(df.cols.contains c)) = [] := by
    simp only [dropTargets, List.filter_cons, List.filter_nil,
      contains_true h2, contains_true h3, contains_true h4]
    rfl
  simp only [dropCols, hm]
  rfl

theorem preprocess_eq_ok (df : DataFrame)
    (h2 : "Unnamed: 2" ∈ df.cols) (h3 : "Unnamed: 3" ∈ df.cols)
    (h4 : "Unnamed: 4" ∈ df.cols) :
    (preprocess_data df).1 =
      .ok ⟨(df.cols.filter keepCol).map renameCol, df.rows.map (dropRow df.cols)⟩ := by
  rw [preprocess_data, dropCols_eq_ok df h2 h3 h4]
  rfl

theorem dropCols_ok_mem (df : DataFrame) (d : DataFrame) (h : dropCols df = .ok d) :
    "Unnamed: 2" ∈ df.cols ∧ "Unnamed: 3" ∈ df.cols ∧ "Unnamed: 4" ∈ df.cols := by
  simp only [dropCols] at h
  by_cases hif : (dropTargets.filter (fun c => !(df.cols.contains c))).isEmpty = true
  · have hall : ∀ c ∈ dropTargets, df.cols.contains c = true := by
      intro c hc
      by_contra hcc
      have hmem : c ∈ dropTargets.filter (fun c => !(df.cols.contains c)) := by
        rw [List.mem_filter]
        exact ⟨hc, by simpa using hcc⟩
      rw [List.isEmpty_iff] at hif
      rw [hif] at hmem
      simp at hmem
    refine ⟨?_, ?_, ?_⟩
    · simpa using hall "Unnamed: 2" (by simp [dropTargets])
    · simpa using hall "Unnamed: 3" (by simp [dropTargets])
    · simpa using hall "Unnamed: 4" (by simp [dropTargets])
  · rw [if_neg hif] at h
    exact absurd h (by simp)

/-! ## Claim C1 (corrected): only the dropped columns are schema-checked -/

/-- C1 counterexample: a dataset in which v1 and v2 are absent (but the
three Unnamed columns are present) is preprocessed successfully, so the
normalization stage does not fail with a schema error for every absent
targeted column. -/
theorem C1_counterexample_missing_v1_v2_still_ok :
    (preprocess_data dfNoV).1 = .ok ⟨["other"], [["d"]]⟩ := by rfl

/-- C1 (amended): preprocess_data succeeds exactly when the three columns
targeted for removal (Unnamed: 2, Unnamed: 3, Unnamed: 4) are all present;
the rename targets v1 and v2 are not schema-checked, since the rename
silently skips absent keys. -/
theorem C1_amended_schema_check_drop_only (df : DataFrame) :
    (∃ df', (preprocess_data df).1 = .ok df') ↔
      ("Unnamed: 2" ∈ df.cols ∧ "Unnamed: 3" ∈ df.cols ∧ "Unnamed: 4" ∈ df.cols) := by
  constructor
  · rintro ⟨df', hdf⟩
    rw [preprocess_data] at hdf
    cases hd : dropCols df with
    | ok d => exact dropCols_ok_mem df d hd
    | error e => rw [hd] at hdf; exact absurd hdf (by simp)
  · rintro ⟨h2, h3, h4⟩
    exact ⟨_, preprocess_eq_ok df h2 h3 h4⟩

/-! ## Claim C8: rename silently skips absent keys -/

/-- C8: whenever the three Unnamed columns are present, preprocess_data
returns successfully even if v1 or v2 is absent: only a missing Unnamed
column can trigger the KeyError failure path. -/
theorem C8_rename_skips_missing_keys (df : DataFrame)
    (h2 : "Unnamed: 2" ∈ df.cols) (h3 : "Unnamed: 3" ∈ df.cols)
    (h4 : "Unnamed: 4" ∈ df.cols) :
    ∃ df', (preprocess_data df).1 = .ok df' :=
  ⟨_, preprocess_eq_ok df h2 h3 h4⟩

/-- Witness for C8 on a concrete dataframe without v1 and v2. -/
theorem C8_rename_skips_missing_keys_witness :
    ("Unnamed: 2" ∈ dfU.cols ∧ "Unnamed: 3" ∈ dfU.cols ∧ "Unnamed: 4" ∈ dfU.cols
      ∧ "v1" ∉ dfU.cols ∧ "v2" ∉ dfU.cols) ∧
    ∃ df', (preprocess_data dfU).1 = .ok df' :=
  ⟨by decide, C8_rename_skips_missing_keys dfU (by decide) (by decide) (by decide)⟩

/-! ## Claim C2: the split partitions the normalized dataset -/

/-- C2: for every normalized dataset and fraction f with 0 < f < 1, the
train and test index sets of the seed-2 split are disjoint, and the test
rows followed by the train rows are a permutation (equal multiset) of the
input rows. -/
theorem C2_split_is_partition (df : DataFrame) (f : ℚ)
    (h1 : 0 < f) (h2 : f < 1) :
    List.Disjoint (splitIdxs f 2 df.rows.length).2 (splitIdxs f 2 df.rows.length).1 ∧
    ((train_test_split df f 2).2.rows
      ++ (train_test_split df f 2).1.rows).Perm df.rows :=
  ⟨splitIdxs_disjoint f 2 df.rows.length, split_union_perm df f 2⟩

/-- Witness for C2 at the ten-row dataset with fraction 1/5. -/
theorem C2_split_is_partition_witness :
    ((0 : ℚ) < 1/5 ∧ (1/5 : ℚ) < 1) ∧
    (List.Disjoint (splitIdxs (1/5) 2 df10.rows.length).2
        (splitIdxs (1/5) 2 df10.rows.length).1 ∧
      ((train_test_split df10 (1/5) 2).2.rows
        ++ (train_test_split df10 (1/5) 2).1.rows).Perm df10.rows) :=
  ⟨⟨by norm_num, by norm_num⟩,
   C2_split_is_partition df10 (1/5) (by norm_num) (by norm_num)⟩

/-! ## Claim C3: split sizes -/

/-- C3: for 0 < f < 1 the test partition has ceil(f n) rows, the train
partition the remaining rows, and the sizes sum to the input size; on the
worked example of the spec (10 rows, f = 0.2, seed 2) the test file serializes
to a header plus exactly 2 data rows, the train file to a header plus 8
data rows, and no row appears in both partitions. -/
theorem C3_split_sizes :
    (∀ (df : DataFrame) (f : ℚ), 0 < f → f < 1 →
      (train_test_split df f 2).2.rows.length = ⌈f * (df.rows.length : ℚ)⌉₊ ∧
      (train_test_split df f 2).1.rows.length
        = df.rows.length - ⌈f * (df.rows.length : ℚ)⌉₊ ∧
      (train_test_split df f 2).1.rows.length + (train_test_split df f 2).2.rows.length
        = df.rows.length) ∧
    (train_test_split df10 (1/5) 2).2.rows.length = 2 ∧
    (train_test_split df10 (1/5) 2).1.rows.length = 8 ∧
    csvLines (to_csv (train_test_split df10 (1/5) 2).2)
      = ["target,text", "ham,m8", "ham,m2", ""] ∧
    (csvLines (to_csv (train_test_split df10 (1/5) 2).1)).length = 10 ∧
    ((train_test_split df10 (1/5) 2).2.rows.all
       (fun r => !((train_test_split df10 (1/5) 2).1.rows.contains r))) = true := by
  constructor
  · intro df f h1 h2
    have hte := split_test_length df f 2 h2.le
    have htr := split_train_length df f 2
    refine ⟨hte, htr, ?_⟩
    rw [hte, htr]
    exact Nat.sub_add_cancel (natCeil_mul_le f df.rows.length h2.le)
  · rw [split_df10_eq]
    refine ⟨by decide, by decide, ?_, ?_, by decide⟩
    · decide
    · decide

/-- Witness for the universally quantified part of C3 at the ten-row dataset. -/
theorem C3_split_sizes_witness :
    ((0 : ℚ) < 1/5 ∧ (1/5 : ℚ) < 1) ∧
    ((train_test_split df10 (1/5) 2).2.rows.length
        = ⌈(1/5 : ℚ) * (df10.rows.length : ℚ)⌉₊ ∧
      (train_test_split df10 (1/5) 2).1.rows.length
        = df10.rows.length - ⌈(1/5 : ℚ) * (df10.rows.length : ℚ)⌉₊ ∧
      (train_test_split df10 (1/5) 2).1.rows.length
        + (train_test_split df10 (1/5) 2).2.rows.length = df10.rows.length) :=
  ⟨⟨by norm_num, by norm_num⟩,
   C3_split_sizes.1 df10 (1/5) (by norm_num) (by norm_num)⟩

/-! ## Association-list lemmas for the column-value view -/

theorem filter_zip_keep (p : String → Bool) :
    ∀ (cs rs : List String), cs.length = rs.length →
      (cs.filter p).zip (((cs.zip rs).filter (fun q => p q.1)).map Prod.snd)
        = (cs.zip rs).filter (fun q => p q.1) := by
  intro cs
  induction cs with
  | nil => intro rs h; simp
  | cons c cs ih =>
    intro rs h
    cases rs with
    | nil => simp at h
    | cons r rs =>
      have h' : cs.length = rs.length := by simpa using h
      cases hp : p c with
      | true =>
        simp only [List.zip_cons_cons, List.filter_cons, hp, if_true, List.map_cons]
        rw [ih rs h']
      | false =>
        simp only [List.zip_cons_cons, List.filter_cons, hp, if_false]
        exact ih rs h'

theorem lookup_filter_keep (p : String → Bool) (c : String) (hc : p c = true) :
    ∀ l : List (String × String),
      (l.filter (fun q => p q.1)).lookup c = l.lookup c := by
  intro l
  induction l with
  | nil => simp
  | cons q l ih =>
    obtain ⟨k, v⟩ := q
    by_cases hk : c = k
    · subst hk
      simp [List.filter_cons, hc, List.lookup]
    · cases hpk : p k with
      | true => simp [List.filter_cons, hpk, List.lookup, beq_false_of_ne hk, ih]
      | false => simp [List.filter_cons, hpk, List.lookup, beq_false_of_ne hk, ih]

theorem lookup_map_key (f : String → String) (c c' : String) :
    ∀ l : List (String × String),
      (∀ q ∈ l, (f q.1 = c ↔ q.1 = c')) →
      (l.map (Prod.map f id)).lookup c = l.lookup c' := by
  intro l
  induction l with
  | nil => intro _; simp
  | cons q l ih =>
    intro h
    obtain ⟨k, v⟩ := q
    have hk := h (k, v) (by simp)
    by_cases hfk : f k = c
    · have hkc : k = c' := hk.1 hfk
      subst hkc
      simp [List.lookup, hfk.symm]
    · have hkc : k ≠ c' := fun he => hfk (hk.2 he)
      have e1 : (c == f k) = false := beq_false_of_ne (fun he => hfk he.symm)
      have e2 : (c' == k) = false := beq_false_of_ne (Ne.symm hkc)
      simp only [List.map_cons, Prod.map, id, List.lookup, e1, e2]
      exact ih (fun q hq => h q (by simp [hq]))

/-! ## Rename case analysis -/

theorem renameCol_other (c : String) (h1 : c ≠ "v1") (h2 : c ≠ "v2") :
    renameCol c = c := by
  simp [renameCol, h1, h2]

theorem renameCol_eq_target (c : String) :
    renameCol c = "target" ↔ (c = "v1" ∨ c = "target") := by
  by_cases h1 : c = "v1"
  · subst h1; decide
  · by_cases h2 : c = "v2"
    · subst h2; decide
    · rw [renameCol_other c h1 h2]
      constructor
      · exact Or.inr
      · rintro (h | h)
        · exact absurd h h1
        · exact h

theorem renameCol_eq_text (c : String) :
    renameCol c = "text" ↔ (c = "v2" ∨ c = "text") := by
  by_cases h1 : c = "v1"
  · subst h1; decide
  · by_cases h2 : c = "v2"
    · subst h2; decide
    · rw [renameCol_other c h1 h2]
      constructor
      · exact Or.inr
      · rintro (h | h)
        · exact absurd h h2
        · exact h

theorem keep_rename_cases (c u : String) (hk : keepCol c = true) (hr : renameCol c = u) :
    (c = "v1" ∧ u = "target") ∨ (c = "v2" ∧ u = "text")
      ∨ (c = u ∧ keepCol u = true ∧ c ≠ "v1" ∧ c ≠ "v2") := by
  by_cases h1 : c = "v1"
  · subst h1; exact Or.inl ⟨rfl, hr.symm⟩
  · by_cases h2 : c = "v2"
    · subst h2; exact Or.inr (Or.inl ⟨rfl, hr.symm⟩)
    · rw [renameCol_other c h1 h2] at hr
      subst hr
      exact Or.inr (Or.inr ⟨rfl, hk, h1, h2⟩)

theorem length_filter_split (p : String → Bool) (l : List String) :
    (l.filter p).length + (l.filter (fun a => !(p a))).length = l.length := by
  induction l with
  | nil => rfl
  | cons a l ih =>
    cases hp : p a with
    | true => simp [List.filter_cons, hp]; omega
    | false => simp [List.filter_cons, hp]; omega

theorem zip_newCols (cs : List String) (r : List String) (hr : r.length = cs.length) :
    ((cs.filter keepCol).map renameCol).zip (dropRow cs r)
      = ((cs.zip r).filter (fun q => keepCol q.1)).map (Prod.map renameCol id) := by
  simp only [dropRow]
  rw [List.zip_map_left, filter_zip_keep keepCol cs r hr.symm]

theorem colVals_new (df : DataFrame)
    (hwf : ∀ r ∈ df.rows, r.length = df.cols.length) (c c' : String)
    (hcond : ∀ a : String, a ∈ df.cols → (renameCol a = c ↔ a = c'))
    (hkeep : keepCol c' = true) :
    (DataFrame.mk ((df.cols.filter keepCol).map renameCol)
        (df.rows.map (dropRow df.cols))).colVals c = df.colVals c' := by
  simp only [DataFrame.colVals, List.map_map]
  apply List.map_congr_left
  intro r hr
  simp only [Function.comp]
  rw [zip_newCols df.cols r (hwf r hr)]
  rw [lookup_map_key renameCol c c' _ ?hc]
  · exact lookup_filter_keep keepCol c' hkeep _
  case hc =>
    rintro ⟨a, b⟩ hq
    exact hcond a (List.of_mem_zip (List.mem_of_mem_filter hq)).1

theorem not_mem_newCols_dropped (cs : List String) (u : String)
    (hu1 : u ≠ "target") (hu2 : u ≠ "text") (hku : keepCol u = false) :
    u ∉ (cs.filter keepCol).map renameCol := by
  intro hm
  rw [List.mem_map] at hm
  obtain ⟨c, hc, hrc⟩ := hm
  rcases keep_rename_cases c u (List.of_mem_filter hc) hrc with
    ⟨_, h⟩ | ⟨_, h⟩ | ⟨_, h, _⟩
  · exact hu1 h
  · exact hu2 h
  · rw [hku] at h; exact Bool.false_ne_true h

theorem not_mem_newCols_renamed (cs : List String) (u : String)
    (hu1 : u ≠ "target") (hu2 : u ≠ "text") (huv : u = "v1" ∨ u = "v2") :
    u ∉ (cs.filter keepCol).map renameCol := by
  intro hm
  rw [List.mem_map] at hm
  obtain ⟨c, hc, hrc⟩ := hm
  rcases keep_rename_cases c u (List.of_mem_filter hc) hrc with
    ⟨_, h⟩ | ⟨_, h⟩ | ⟨hcu, _, hne1, hne2⟩
  · exact hu1 h
  · exact hu2 h
  · subst hcu
    rcases huv with rfl | rfl
    · exact hne1 rfl
    · exact hne2 rfl

/-! ## Claim C5: the normalizer is a frame transformation -/

/-- C5: on a well-formed dataset holding all five targeted columns (and no
column already labelled target or text), preprocess_data removes exactly the
three Unnamed columns, renames v1 to target and v2 to text, and leaves every
other column label, its per-row values, and the row count untouched. -/
theorem C5_normalizer_frame (df : DataFrame)
    (h2 : "Unnamed: 2" ∈ df.cols) (h3 : "Unnamed: 3" ∈ df.cols)
    (h4 : "Unnamed: 4" ∈ df.cols)
    (hv1 : "v1" ∈ df.cols) (hv2 : "v2" ∈ df.cols)
    (hnd : df.cols.Nodup)
    (ht : "target" ∉ df.cols) (hx : "text" ∉ df.cols)
    (hwf : ∀ r ∈ df.rows, r.length = df.cols.length) :
    ∃ df', (preprocess_data df).1 = .ok df' ∧
      df'.rows.length = df.rows.length ∧
      df'.cols.length + 3 = df.cols.length ∧
      "Unnamed: 2" ∉ df'.cols ∧ "Unnamed: 3" ∉ df'.cols ∧ "Unnamed: 4" ∉ df'.cols ∧
      "v1" ∉ df'.cols ∧ "v2" ∉ df'.cols ∧
      "target" ∈ df'.cols ∧ "text" ∈ df'.cols ∧
      df'.colVals "target" = df.colVals "v1" ∧
      df'.colVals "text" = df.colVals "v2" ∧
      (∀ c, c ∉ dropTargets → c ≠ "v1" → c ≠ "v2" → c ≠ "target" → c ≠ "text" →
        ((c ∈ df'.cols ↔ c ∈ df.cols) ∧ df'.colVals c = df.colVals c)) := by
  refine ⟨⟨(df.cols.filter keepCol).map renameCol, df.rows.map (dropRow df.cols)⟩,
    preprocess_eq_ok df h2 h3 h4, by simp, ?_, ?_, ?_, ?_, ?_, ?_, ?_, ?_, ?_, ?_, ?_⟩
  · -- exactly three columns are removed
    have hsplit := length_filter_split keepCol df.cols
    have hnd' : (df.cols.filter (fun a => !(keepCol a))).Nodup := hnd.filter _
    have hmm : ∀ a, a ∈ df.cols.filter (fun a => !(keepCol a)) ↔ a ∈ dropTargets := by
      intro a
      rw [List.mem_filter]
      constructor
      · rintro ⟨_, hb⟩
        simp only [keepCol, Bool.not_not] at hb
        simpa using hb
      · intro ha
        have ha' : a = "Unnamed: 2" ∨ a = "Unnamed: 3" ∨ a = "Unnamed: 4" := by
          simpa [dropTargets] using ha
        have hacs : a ∈ df.cols := by rcases ha' with rfl | rfl | rfl <;> assumption
        refine ⟨hacs, ?_⟩
        have hca : dropTargets.contains a = true := contains_true ha
        simp only [keepCol, Bool.not_not]
        exact hca
    have hperm := (List.perm_ext_iff_of_nodup hnd' (by decide)).2 hmm
    have h3len : (df.cols.filter (fun a => !(keepCol a))).length = 3 := by
      simpa using hperm.length_eq
    simp only [List.length_map]
    omega
  · exact not_mem_newCols_dropped df.cols "Unnamed: 2" (by decide) (by decide) (by decide)
  · exact not_mem_newCols_dropped df.cols "Unnamed: 3" (by decide) (by decide) (by decide)
  · exact not_mem_newCols_dropped df.cols "Unnamed: 4" (by decide) (by decide) (by decide)
  · exact not_mem_newCols_renamed df.cols "v1" (by decide) (by decide) (Or.inl rfl)
  · exact not_mem_newCols_renamed df.cols "v2" (by decide) (by decide) (Or.inr rfl)
  · exact List.mem_map.2 ⟨"v1", List.mem_filter.2 ⟨hv1, by decide⟩, by decide⟩
  · exact List.mem_map.2 ⟨"v2", List.mem_filter.2 ⟨hv2, by decide⟩, by decide⟩
  · -- values of target are the values of v1
    apply colVals_new df hwf "target" "v1" ?_ (by decide)
    intro a ha
    rw [renameCol_eq_target]
    constructor
    · rintro (h | h)
      · exact h
      · exact absurd (h ▸ ha) ht
    · exact Or.inl
  · -- values of text are the values of v2
    apply colVals_new df hwf "text" "v2" ?_ (by decide)
    intro a ha
    rw [renameCol_eq_text]
    constructor
    · rintro (h | h)
      · exact h
      · exact absurd (h ▸ ha) hx
    · exact Or.inl
  · -- every unlisted column passes through unchanged
    intro c hcd hne1 hne2 hnet hnex
    have hcf : dropTargets.contains c = false := by
      cases hcon : dropTargets.contains c
      · rfl
      · exact absurd (by simpa using hcon) hcd
    have hkc : keepCol c = true := by
      simp only [keepCol, hcf]
      rfl
    constructor
    · constructor
      · intro hm
        rw [List.mem_map] at hm
        obtain ⟨a, ha, hra⟩ := hm
        rcases keep_rename_cases a c (List.of_mem_filter ha) hra with
          ⟨_, h⟩ | ⟨_, h⟩ | ⟨hac, _, _⟩
        · exact absurd h hnet
        · exact absurd h hnex
        · exact hac ▸ List.mem_of_mem_filter ha
      · intro hc
        exact List.mem_map.2 ⟨c, List.mem_filter.2 ⟨hc, hkc⟩, renameCol_other c hne1 hne2⟩
    · apply colVals_new df hwf c c ?_ hkc
      intro a _
      constructor
      · intro h
        by_cases ha1 : a = "v1"
        · subst ha1
          exact absurd h.symm hnet
        · by_cases ha2 : a = "v2"
          · subst ha2
            exact absurd h.symm hnex
          · rwa [renameCol_other a ha1 ha2] at h
      · intro h
        rw [h, renameCol_other c hne1 hne2]

/-- Witness for C5 on a concrete raw dataset with one extra column. -/
theorem C5_normalizer_frame_witness :
    (("Unnamed: 2" ∈ df5.cols ∧ "Unnamed: 3" ∈ df5.cols ∧ "Unnamed: 4" ∈ df5.cols ∧
      "v1" ∈ df5.cols ∧ "v2" ∈ df5.cols ∧ df5.cols.Nodup ∧
      "target" ∉ df5.cols ∧ "text" ∉ df5.cols) ∧
     (∀ r ∈ df5.rows, r.length = df5.cols.length)) ∧
    (∃ df', (preprocess_data df5).1 = .ok df' ∧
      df'.rows.length = df5.rows.length ∧
      df'.cols.length + 3 = df5.cols.length ∧
      "Unnamed: 2" ∉ df'.cols ∧ "Unnamed: 3" ∉ df'.cols ∧ "Unnamed: 4" ∉ df'.cols ∧
      "v1" ∉ df'.cols ∧ "v2" ∉ df'.cols ∧
      "target" ∈ df'.cols ∧ "text" ∈ df'.cols ∧
      df'.colVals "target" = df5.colVals "v1" ∧
      df'.colVals "text" = df5.colVals "v2" ∧
      (∀ c, c ∉ dropTargets → c ≠ "v1" → c ≠ "v2" → c ≠ "target" → c ≠ "text" →
        ((c ∈ df'.cols ↔ c ∈ df5.cols) ∧ df'.colVals c = df5.colVals c))) :=
  ⟨⟨by decide, by decide⟩,
   C5_normalizer_frame df5 (by decide) (by decide) (by decide) (by decide) (by decide)
     (by decide) (by decide) (by decide) (by decide)⟩

/-! ## Orchestrator lemmas -/

theorem subscript_error_kind (y : Yaml) (k : String) (e : PyError)
    (h : y.subscript k = .error e) :
    (∃ m, e = .keyError m) ∨ (∃ m, e = .typeError m) := by
  cases y with
  | null =>
    simp only [Yaml.subscript, Except.error.injEq] at h
    exact Or.inr ⟨_, h.symm⟩
  | num q =>
    simp only [Yaml.subscript, Except.error.injEq] at h
    exact Or.inr ⟨_, h.symm⟩
  | str s =>
    simp only [Yaml.subscript, Except.error.injEq] at h
    exact Or.inr ⟨_, h.symm⟩
  | map es =>
    simp only [Yaml.subscript] at h
    cases hl : es.lookup k with
    | some v => rw [hl] at h; exact absurd h (by simp)
    | none =>
      rw [hl] at h
      simp only [Except.error.injEq] at h
      exact Or.inl ⟨_, h.symm⟩

theorem lookupTestSize_error_kind (y : Yaml) (e : PyError)
    (h : lookupTestSize y = .error e) :
    (∃ m, e = .keyError m) ∨ (∃ m, e = .typeError m) := by
  rw [lookupTestSize] at h
  cases hs : y.subscript "data_ingestion" with
  | error e1 =>
    rw [hs] at h
    simp only [Except.error.injEq] at h
    subst h
    exact subscript_error_kind y _ _ hs
  | ok s =>
    rw [hs] at h
    exact subscript_error_kind s _ _ h

/-! ## Claim C6: the orchestrator is a single catch-all boundary -/

/-- C6: whenever any stage of the pipeline raises, main catches the
exception at its single top-level handler, appends an error-level log entry
and the console line Error: message to the trace of the already-performed
effects, and returns normally with exit code 0. -/
theorem C6_single_top_level_handler (env : Env) (e : PyError) (fs1 : Fs)
    (t : List Event)
    (h : pipelineBody env = (.error e, fs1, t)) :
    main env =
      ⟨fs1,
       t ++ [.logError ("Failed to complete the data ingestion process: " ++ e.message),
             .consolePrint ("Error: " ++ e.message)],
       0⟩ := by
  rw [main, h]

/-- Witness for C6: a run whose params.yaml is missing is caught, logged,
printed, and exits 0. -/
theorem C6_single_top_level_handler_witness :
    main envC6 =
      ⟨emptyFs,
       [Event.logError "File not found: params.yaml"]
         ++ [Event.logError ("Failed to complete the data ingestion process: "
               ++ "params.yaml"),
             Event.consolePrint ("Error: " ++ "params.yaml")],
       0⟩ :=
  C6_single_top_level_handler envC6 (.fileNotFound "params.yaml") emptyFs
    [Event.logError "File not found: params.yaml"] rfl

/-! ## Claim C7: malformed YAML stops the run before any fetch or write -/

/-- C7: when params.yaml holds invalid YAML, the run fails in the config
loader: the filesystem is unchanged, the fetch is never attempted, no file
write happens, and main still returns with exit code 0. -/
theorem C7_invalid_yaml_no_side_effects (env : Env) (m : String)
    (h : env.config = .error (.yamlError m)) :
    (main env).fs = env.fs ∧
    Event.fetchAttempt ∉ (main env).events ∧
    (∀ p, Event.fileWrite p ∉ (main env).events) ∧
    (main env).exitCode = 0 := by
  have hpb : pipelineBody env =
      (.error (.yamlError m), env.fs, [.logError ("YAML error: " ++ m)]) := by
    rw [pipelineBody, h]
    rfl
  refine ⟨?_, ?_, ?_, ?_⟩
  · simp [main, hpb]
  · simp [main, hpb]
  · intro p; simp [main, hpb]
  · simp [main, hpb]

/-- Witness for C7 on a concrete malformed-YAML environment. -/
theorem C7_invalid_yaml_no_side_effects_witness :
    (main envC7).fs = envC7.fs ∧
    Event.fetchAttempt ∉ (main envC7).events ∧
    (∀ p, Event.fileWrite p ∉ (main envC7).events) ∧
    (main envC7).exitCode = 0 :=
  C7_invalid_yaml_no_side_effects envC7 "mapping values are not allowed here" rfl

/-! ## Claim C9: a missing data_ingestion or test_size key is still caught -/

/-- C9: when the parsed config lacks the data_ingestion section or the
test_size key (including an empty file parsed to None), the failure raised
at the key lookup is a KeyError or TypeError (outside the error
taxonomy of the spec), happens before the fetch, and is still caught by the top-level
handler, logged, printed as Error: message, with a normal exit 0. -/
theorem C9_missing_config_key_caught (env : Env) (y : Yaml) (e : PyError)
    (hc : env.config = .ok y) (hl : lookupTestSize y = .error e) :
    ((∃ m, e = .keyError m) ∨ (∃ m, e = .typeError m)) ∧
    main env =
      ⟨env.fs,
       [.logDebug "Parameters retrieved from params.yaml",
        .logError ("Failed to complete the data ingestion process: " ++ e.message),
        .consolePrint ("Error: " ++ e.message)],
       0⟩ ∧
    Event.fetchAttempt ∉ (main env).events ∧
    (∀ p, Event.fileWrite p ∉ (main env).events) := by
  have hpb : pipelineBody env =
      (.error e, env.fs, [.logDebug "Parameters retrieved from params.yaml"]) := by
    rw [pipelineBody, hc]
    simp only [load_params]
    rw [hl]
  refine ⟨lookupTestSize_error_kind y e hl, ?_, ?_, ?_⟩
  · simp only [main, hpb]
    rfl
  · simp only [main, hpb]
    simp
  · intro p
    simp only [main, hpb]
    simp

/-- Witness for C9 on an empty params.yaml (parsed to None). -/
theorem C9_missing_config_key_caught_witness :
    ((∃ m, PyError.typeError "NoneType object is not subscriptable" = PyError.keyError m)
      ∨ (∃ m, PyError.typeError "NoneType object is not subscriptable"
          = PyError.typeError m)) ∧
    main envC9 =
      ⟨envC9.fs,
       [.logDebug "Parameters retrieved from params.yaml",
        .logError ("Failed to complete the data ingestion process: "
          ++ (PyError.typeError "NoneType object is not subscriptable").message),
        .consolePrint ("Error: "
          ++ (PyError.typeError "NoneType object is not subscriptable").message)],
       0⟩ ∧
    Event.fetchAttempt ∉ (main envC9).events ∧
    (∀ p, Event.fileWrite p ∉ (main envC9).events) :=
  C9_missing_config_key_caught envC9 .null
    (.typeError "NoneType object is not subscriptable") rfl rfl

/-! ## Claim C10: save_data overwrites its two targets and nothing else -/

theorem string_append_right_ne (root a b : String) (h : a ≠ b) :
    root ++ a ≠ root ++ b := by
  intro he
  apply h
  have hd := congrArg String.data he
  rw [String.data_append, String.data_append] at hd
  have hab := List.append_cancel_left hd
  cases a
  cases b
  exact congrArg String.mk hab

/-- C10: for every pre-existing filesystem state, a successful save_data
replaces the contents at data_root/raw/train.csv and data_root/raw/test.csv
with the new serializations (a truncating write, never an append), and it
modifies no other path. -/
theorem C10_save_overwrites_and_frames (tr te : DataFrame) (root : String)
    (fs : Fs) (wf : String → Option PyError)
    (hw1 : wf (root ++ "/raw/train.csv") = none)
    (hw2 : wf (root ++ "/raw/test.csv") = none) :
    (save_data tr te root fs wf).1 = .ok () ∧
    (save_data tr te root fs wf).2.1 (root ++ "/raw/train.csv") = some (to_csv tr) ∧
    (save_data tr te root fs wf).2.1 (root ++ "/raw/test.csv") = some (to_csv te) ∧
    (∀ p, p ≠ root ++ "/raw/train.csv" → p ≠ root ++ "/raw/test.csv" →
      (save_data tr te root fs wf).2.1 p = fs p) := by
  have hne : root ++ "/raw/train.csv" ≠ root ++ "/raw/test.csv" :=
    string_append_right_ne root _ _ (by decide)
  refine ⟨?_, ?_, ?_, ?_⟩
  · simp [save_data, hw1, hw2]
  · simp [save_data, hw1, hw2, hne]
  · simp [save_data, hw1, hw2]
  · intro p hp1 hp2
    simp [save_data, hw1, hw2, hp1, hp2]

/-- Witness for C10 over a filesystem in which both paths already hold
stale content. -/
theorem C10_save_overwrites_and_frames_witness :
    (noFail ("data" ++ "/raw/train.csv") = none ∧
     noFail ("data" ++ "/raw/test.csv") = none) ∧
    ((save_data df10 dfU "data" junkFs noFail).1 = .ok () ∧
     (save_data df10 dfU "data" junkFs noFail).2.1 ("data" ++ "/raw/train.csv")
        = some (to_csv df10) ∧
     (save_data df10 dfU "data" junkFs noFail).2.1 ("data" ++ "/raw/test.csv")
        = some (to_csv dfU) ∧
     (∀ p, p ≠ "data" ++ "/raw/train.csv" → p ≠ "data" ++ "/raw/test.csv" →
        (save_data df10 dfU "data" junkFs noFail).2.1 p = junkFs p)) :=
  ⟨⟨rfl, rfl⟩,
   C10_save_overwrites_and_frames df10 dfU "data" junkFs noFail rfl rfl⟩

/-! ## Claim C4: two runs on the same inputs write identical bytes -/

theorem pipeline_ok_outputs (env : Env)
    (h : (pipelineBody env).1 = Except.ok ()) :
    ∃ q, pureSplit env.config env.fetched = some q ∧
      (main env).fs "data/raw/train.csv" = some (to_csv q.1) ∧
      (main env).fs "data/raw/test.csv" = some (to_csv q.2) := by
  have e1 : ("data" ++ "/raw/train.csv" : String) = "data/raw/train.csv" := rfl
  have e2 : ("data" ++ "/raw/test.csv" : String) = "data/raw/test.csv" := rfl
  have hne12 : ("data/raw/train.csv" : String) ≠ "data/raw/test.csv" := by decide
  obtain ⟨c, fe, fs0, wf⟩ := env
  cases c with
  | error e =>
    exfalso
    cases e <;> simp [pipelineBody, load_params] at h
  | ok y =>
    cases hl : lookupTestSize y with
    | error e =>
      exfalso
      simp [pipelineBody, load_params, hl] at h
    | ok tsv =>
      cases fe with
      | error e =>
        exfalso
        cases e <;> simp [pipelineBody, load_params, load_data, hl] at h
      | ok df =>
        cases hd : dropCols df with
        | error e =>
          exfalso
          simp [pipelineBody, load_params, load_data, preprocess_data, hl, hd] at h
        | ok d1 =>
          cases tsv with
          | null =>
            exfalso
            simp [pipelineBody, load_params, load_data, preprocess_data, hl, hd] at h
          | str s =>
            exfalso
            simp [pipelineBody, load_params, load_data, preprocess_data, hl, hd] at h
          | map es =>
            exfalso
            simp [pipelineBody, load_params, load_data, preprocess_data, hl, hd] at h
          | num f =>
            cases hw1 : wf "data/raw/train.csv" with
            | some e =>
              exfalso
              simp [pipelineBody, load_params, load_data, preprocess_data, save_data,
                hl, hd, hw1] at h
            | none =>
              cases hw2 : wf "data/raw/test.csv" with
              | some e =>
                exfalso
                simp [pipelineBody, load_params, load_data, preprocess_data, save_data,
                  hl, hd, hw1, hw2] at h
              | none =>
                refine ⟨train_test_split (renameCols d1) f 2, ?_, ?_, ?_⟩
                · simp [pureSplit, hl, hd]
                · simp [main, pipelineBody, load_params, load_data, preprocess_data,
                    save_data, hl, hd, hw1, hw2, e1, e2, hne12]
                · simp [main, pipelineBody, load_params, load_data, preprocess_data,
                    save_data, hl, hd, hw1, hw2, e1, e2, hne12]

/-- C4: two runs given the same config parse outcome and the same fetched
dataset (and hence the same fraction and the fixed seed 2) that both
complete successfully leave byte-identical train.csv and test.csv contents,
whatever the two prior filesystem states and write environments were. -/
theorem C4_deterministic_outputs (e1 e2 : Env)
    (hc : e1.config = e2.config) (hf : e1.fetched = e2.fetched)
    (h1 : (pipelineBody e1).1 = .ok ()) (h2 : (pipelineBody e2).1 = .ok ()) :
    (main e1).fs "data/raw/train.csv" = (main e2).fs "data/raw/train.csv" ∧
    (main e1).fs "data/raw/test.csv" = (main e2).fs "data/raw/test.csv" := by
  obtain ⟨q1, hq1, ht1, hs1⟩ := pipeline_ok_outputs e1 h1
  obtain ⟨q2, hq2, ht2, hs2⟩ := pipeline_ok_outputs e2 h2
  rw [hc, hf] at hq1
  rw [hq1] at hq2
  have hq : q1 = q2 := Option.some.inj hq2
  constructor
  · rw [ht1, ht2, hq]
  · rw [hs1, hs2, hq]

/-- Witness for C4: the same config and dataset over an empty and over a
dirty prior filesystem produce the same file contents. -/
theorem C4_deterministic_outputs_witness :
    (envC4a.config = envC4b.config ∧ envC4a.fetched = envC4b.fetched ∧
     (pipelineBody envC4a).1 = .ok () ∧ (pipelineBody envC4b).1 = .ok ()) ∧
    ((main envC4a).fs "data/raw/train.csv" = (main envC4b).fs "data/raw/train.csv" ∧
     (main envC4a).fs "data/raw/test.csv" = (main envC4b).fs "data/raw/test.csv") :=
  ⟨⟨rfl, rfl, rfl, rfl⟩,
   C4_deterministic_outputs envC4a envC4b rfl rfl rfl rfl⟩

end Ingestion

